import Mathlib

/-!
Verification of the inventory ledger, checkout orchestrator and catalog
helpers of the helloibe-nodejs back-office API, as a shallow embedding in
Lean.  JavaScript numbers that carry quantities and prices are modelled as
exact rationals, timestamps as integers (milliseconds), and the relational
tables as Lean lists.  Each definition is translated from the TypeScript
source file it names; definitions whose doc comment says so are instead
modelled from the specification wording, for comparison with the source.
-/

namespace HelloIbe

/-- Lot status, from the inventory model: active, near_expiry or expired. -/
inductive Status where
  | active
  | near_expiry
  | expired
deriving DecidableEq, Repr

/-- One inventory lot, the row type of the inventories table
(src/models and src/repository/InventoryRepository.ts).  Timestamps are
milliseconds since the epoch. -/
structure Lot where
  id : Nat
  product_id : String
  quantity : ℚ
  location : Option String
  expiry_date : Option ℤ
  status : Status
  created_by : String
  created_at : ℤ
deriving DecidableEq, Repr

/-- Allocatability test used by the ledger queries: the WHERE clause
product_id = :productId AND status IN (active, near_expiry) shared by
GetTotalInventoryQuantity and FindByProductIdOrderedByExpiry. -/
def allocPred (pid : String) (l : Lot) : Bool :=
  decide (l.product_id = pid ∧ (l.status = Status.active ∨ l.status = Status.near_expiry))

/-- The ORDER BY key of FindByProductIdOrderedByExpiry
(InventoryRepository.ts lines 196-199): expiry_date ascending with NULLS
LAST, ties broken by created_at ascending. -/
def allocLE (a b : Lot) : Bool :=
  match a.expiry_date, b.expiry_date with
  | some x, some y => decide (x < y ∨ (x = y ∧ a.created_at ≤ b.created_at))
  | some _, none => true
  | none, some _ => false
  | none, none => decide (a.created_at ≤ b.created_at)

/-- The ordering relation induced by `allocLE`, used to state sortedness. -/
def lotOrder (a b : Lot) : Prop := allocLE a b = true

instance : DecidableRel lotOrder := fun a b =>
  inferInstanceAs (Decidable (allocLE a b = true))

/-- InventoryRepository.GetTotalInventoryQuantity: the SQL
SELECT COALESCE(SUM(quantity), 0) FROM inventories WHERE product_id =
:productId AND status IN (active, near_expiry). -/
def GetTotalInventoryQuantity (db : List Lot) (productId : String) : ℚ :=
  ((db.filter (allocPred productId)).map (fun l => l.quantity)).sum

/-- InventoryRepository.FindByProductIdOrderedByExpiry: findAll with the
allocatability WHERE clause, ordered by expiry_date ASC NULLS LAST then
created_at ASC. -/
def FindByProductIdOrderedByExpiry (db : List Lot) (productId : String) : List Lot :=
  List.insertionSort lotOrder (db.filter (allocPred productId))

/-- Errors thrown by InventoryRepository.ReduceInventoryQuantity. -/
inductive DepleteError where
  | noInventory (productId : String)
  | insufficient (requested available missing : ℚ)
deriving DecidableEq, Repr

/-- Inventory.destroy where id = i, as performed inside the depletion
loop when a lot is fully consumed. -/
def deleteLot (db : List Lot) (i : Nat) : List Lot :=
  db.filter (fun l => decide (l.id ≠ i))

/-- The for-loop of InventoryRepository.ReduceInventoryQuantity (lines
220-252): walks the allocatable lots carrying the remaining quantity and
the table state; breaks when remaining ≤ 0; deletes a lot whose quantity
is at most remaining; otherwise updates that lot down by remaining and
sets remaining to 0. -/
def depleteLoop : List Lot → ℚ → List Lot → List Lot × ℚ
  | [], remaining, db => (db, remaining)
  | inv :: rest, remaining, db =>
    if remaining ≤ 0 then (db, remaining)
    else if inv.quantity ≤ remaining then
      depleteLoop rest (remaining - inv.quantity) (deleteLot db inv.id)
    else
      depleteLoop rest 0
        (db.map (fun l => if l.id = inv.id then { l with quantity := l.quantity - remaining } else l))

/-- InventoryRepository.ReduceInventoryQuantity (lines 206-265): fetches
the allocatable lots, throws the no-inventory error when there are none,
runs the depletion loop, and throws the insufficient-inventory error
(reporting requested, available = requested - remaining, missing =
remaining) when demand is left over.  The returned list is the table
state after the mutations, which persist even on the thrown error. -/
def ReduceInventoryQuantity (db : List Lot) (productId : String) (quantityToReduce : ℚ) :
    List Lot × Option DepleteError :=
  let inventories := FindByProductIdOrderedByExpiry db productId
  if inventories.isEmpty then
    (db, some (DepleteError.noInventory productId))
  else
    let res := depleteLoop inventories quantityToReduce db
    if res.2 > 0 then
      (res.1, some (DepleteError.insufficient quantityToReduce (quantityToReduce - res.2) res.2))
    else
      (res.1, none)

/-- Total quantity carried by a list of lots. -/
def totalQ (s : List Lot) : ℚ := (s.map (fun l => l.quantity)).sum

/-- Modelled from the spec: the walk of claim C1, written from its words.
While demand remains, each lot whose quantity is at most the remaining
demand is deleted entirely and its quantity subtracted from the demand; a
lot whose quantity exceeds the remaining demand has its quantity reduced
by the demand, the demand becomes 0 and the walk stops. -/
def specWalk : List Lot → ℚ → List Lot → List Lot × ℚ
  | [], remaining, db => (db, remaining)
  | lot :: rest, remaining, db =>
    if 0 < remaining then
      if lot.quantity ≤ remaining then
        specWalk rest (remaining - lot.quantity) (deleteLot db lot.id)
      else
        (db.map (fun l => if l.id = lot.id then { l with quantity := l.quantity - remaining } else l), 0)
    else (db, remaining)

/-- Modelled from the spec: Deplete as described by claim C1.  It walks
the lots returned by ListAllocatable in order with `specWalk`; if after
consuming all allocatable lots the remaining demand is positive it fails
with InsufficientInventory reporting the requested amount, the available
amount (the total allocatable quantity) and the missing amount; if zero
lots exist it fails with ProductHasNoInventory. -/
def DepleteSpec (db : List Lot) (productId : String) (requested : ℚ) :
    List Lot × Option DepleteError :=
  let lots := FindByProductIdOrderedByExpiry db productId
  if lots = [] then
    (db, some (DepleteError.noInventory productId))
  else
    let res := specWalk lots requested db
    if 0 < res.2 then
      (res.1, some (DepleteError.insufficient requested (totalQ lots) (requested - totalQ lots)))
    else
      (res.1, none)

/-- Iterated lot deletion: removing from the table every id occurring in
the walked list, in order. -/
def deleteAll (s : List Lot) (db : List Lot) : List Lot :=
  s.foldl (fun d x => deleteLot d x.id) db

instance : IsTotal Lot lotOrder where
  total a b := by
    unfold lotOrder allocLE
    rcases ha : a.expiry_date with _ | x <;> rcases hb : b.expiry_date with _ | y <;>
      simp [ha, hb] <;> omega

instance : IsTrans Lot lotOrder where
  trans a b c hab hbc := by
    unfold lotOrder allocLE at hab hbc ⊢
    rcases ha : a.expiry_date with _ | x <;> rcases hb : b.expiry_date with _ | y <;>
      rcases hc : c.expiry_date with _ | z <;> simp [ha, hb, hc] at hab hbc ⊢ <;> omega

theorem depleteLoop_of_nonpos (s : List Lot) (r : ℚ) (db : List Lot) (h : r ≤ 0) :
    depleteLoop s r db = (db, r) := by
  cases s with
  | nil => rfl
  | cons a t => simp [depleteLoop, h]

theorem depleteLoop_eq_specWalk (s : List Lot) (r : ℚ) (db : List Lot) :
    depleteLoop s r db = specWalk s r db := by
  induction s generalizing r db with
  | nil => rfl
  | cons a t ih =>
    by_cases h : r ≤ 0
    · simp [depleteLoop, specWalk, h, not_lt.mpr h]
    · have h0 : 0 < r := lt_of_not_le h
      by_cases hq : a.quantity ≤ r
      · simp [depleteLoop, specWalk, h, h0, hq, ih]
      · simp [depleteLoop, specWalk, h, h0, hq, depleteLoop_of_nonpos t 0 _ le_rfl]

theorem totalQ_nil : totalQ [] = 0 := rfl

theorem totalQ_cons (a : Lot) (t : List Lot) : totalQ (a :: t) = a.quantity + totalQ t := by
  simp [totalQ]

theorem totalQ_nonneg (s : List Lot) (h : ∀ l ∈ s, 0 ≤ l.quantity) : 0 ≤ totalQ s := by
  induction s with
  | nil => simp [totalQ]
  | cons a t ih =>
    rw [totalQ_cons]
    have := h a (by simp)
    have := ih (fun l hl => h l (by simp [hl]))
    linarith

theorem depleteLoop_snd_of_pos (s : List Lot) (q : ℚ) (db : List Lot)
    (h : 0 < (depleteLoop s q db).2) : (depleteLoop s q db).2 = q - totalQ s := by
  induction s generalizing q db with
  | nil => simp [depleteLoop, totalQ]
  | cons a t ih =>
    by_cases hq : q ≤ 0
    · rw [depleteLoop_of_nonpos _ _ _ hq] at h
      exact absurd h (not_lt.mpr hq)
    · by_cases hle : a.quantity ≤ q
      · rw [show depleteLoop (a :: t) q db
            = depleteLoop t (q - a.quantity) (deleteLot db a.id) by
          simp [depleteLoop, hq, hle]] at h ⊢
        rw [ih _ _ h, totalQ_cons]
        ring
      · rw [show depleteLoop (a :: t) q db
            = depleteLoop t 0 (db.map (fun l =>
                if l.id = a.id then { l with quantity := l.quantity - q } else l)) by
          simp [depleteLoop, hq, hle]] at h
        rw [depleteLoop_of_nonpos _ _ _ le_rfl] at h
        exact absurd h (by norm_num)

theorem depleteLoop_deleteAll (s : List Lot) (q : ℚ) (db : List Lot)
    (hnn : ∀ l ∈ s, 0 ≤ l.quantity)
    (hcase : totalQ s < q ∨ (totalQ s = q ∧ ∀ l ∈ s, 0 < l.quantity)) :
    depleteLoop s q db = (deleteAll s db, q - totalQ s) := by
  induction s generalizing q db with
  | nil => simp [depleteLoop, deleteAll, totalQ]
  | cons a t ih =>
    have htnn : ∀ l ∈ t, 0 ≤ l.quantity := fun l hl => hnn l (by simp [hl])
    have h0t : 0 ≤ totalQ t := totalQ_nonneg t htnn
    have h0a : 0 ≤ a.quantity := hnn a (by simp)
    have htot : totalQ (a :: t) ≤ q := by
      rcases hcase with h | ⟨h, _⟩
      · exact le_of_lt h
      · exact le_of_eq h
    have hq0 : 0 < q := by
      rcases hcase with h | ⟨h, hpos⟩
      · have : 0 ≤ totalQ (a :: t) := by rw [totalQ_cons]; linarith
        linarith
      · have := hpos a (by simp)
        rw [totalQ_cons] at h
        linarith
    have hle : a.quantity ≤ q := by
      rw [totalQ_cons] at htot
      linarith
    rw [show depleteLoop (a :: t) q db
        = depleteLoop t (q - a.quantity) (deleteLot db a.id) by
      simp [depleteLoop, not_le.mpr hq0, hle]]
    have hrec : totalQ t < q - a.quantity ∨
        (totalQ t = q - a.quantity ∧ ∀ l ∈ t, 0 < l.quantity) := by
      rcases hcase with h | ⟨h, hpos⟩
      · left
        rw [totalQ_cons] at h
        linarith
      · right
        constructor
        · rw [totalQ_cons] at h
          linarith
        · exact fun l hl => hpos l (by simp [hl])
    rw [ih _ _ htnn hrec]
    have : deleteAll (a :: t) db = deleteAll t (deleteLot db a.id) := rfl
    rw [this, totalQ_cons]
    congr 1
    ring

theorem mem_deleteAll (s : List Lot) (db : List Lot) (l : Lot) :
    l ∈ deleteAll s db ↔ l ∈ db ∧ ∀ x ∈ s, l.id ≠ x.id := by
  induction s generalizing db with
  | nil => simp [deleteAll]
  | cons a t ih =>
    have : deleteAll (a :: t) db = deleteAll t (deleteLot db a.id) := rfl
    rw [this, ih]
    simp only [deleteLot, List.mem_filter, decide_eq_true_eq, List.mem_cons]
    constructor
    · rintro ⟨⟨hdb, hne⟩, hall⟩
      refine ⟨hdb, ?_⟩
      rintro x (rfl | hx)
      · exact hne
      · exact hall x hx
    · rintro ⟨hdb, hall⟩
      exact ⟨⟨hdb, hall a (by simp)⟩, fun x hx => hall x (by simp [hx])⟩

theorem alloc_deleteAll_eq_nil (db : List Lot) (p : String) :
    FindByProductIdOrderedByExpiry
      (deleteAll (FindByProductIdOrderedByExpiry db p) db) p = [] := by
  have hfil : (deleteAll (FindByProductIdOrderedByExpiry db p) db).filter (allocPred p) = [] := by
    rw [List.filter_eq_nil_iff]
    intro l hl hp
    have hmem := (mem_deleteAll _ _ _).1 hl
    have hls : l ∈ FindByProductIdOrderedByExpiry db p := by
      unfold FindByProductIdOrderedByExpiry
      exact (List.mem_insertionSort _).2 (List.mem_filter.2 ⟨hmem.1, hp⟩)
    exact hmem.2 l hls rfl
  show List.insertionSort lotOrder
    ((deleteAll (FindByProductIdOrderedByExpiry db p) db).filter (allocPred p)) = []
  rw [hfil]
  rfl

/-- Claim C1: Deplete (InventoryRepository.ReduceInventoryQuantity) walks
the lots returned by ListAllocatable in order, deleting each lot whose
quantity is at most the remaining demand and subtracting it, reducing by
the remaining demand the first lot whose quantity exceeds it and
stopping; it fails with InsufficientInventory (reporting requested,
available and missing amounts) when demand is left after consuming all
allocatable lots, and with ProductHasNoInventory when zero lots exist.
Stated as: the source function coincides with `DepleteSpec`, the
definition written from the words of the claim. -/
theorem claim_C1_reduce_refines_spec (db : List Lot) (productId : String) (q : ℚ) :
    ReduceInventoryQuantity db productId q = DepleteSpec db productId q := by
  unfold ReduceInventoryQuantity DepleteSpec
  rcases hs : FindByProductIdOrderedByExpiry db productId with _ | ⟨a, t⟩
  · simp
  · simp only [List.isEmpty_cons, Bool.false_eq_true, if_false,
      reduceCtorEq, if_neg (by simp : ¬(a :: t = []))]
    rw [← depleteLoop_eq_specWalk]
    by_cases hpos : 0 < (depleteLoop (a :: t) q db).2
    · have hsnd := depleteLoop_snd_of_pos (a :: t) q db hpos
      simp only [gt_iff_lt, hpos, if_pos hpos, if_true]
      rw [hsnd]
      congr 2
      ring_nf
    · simp [hpos, not_lt.mp hpos]

/-- Claim C2: FindByProductIdOrderedByExpiry returns exactly the lots of
the product whose status is active or near_expiry, ordered by expiry_date
ascending with null expiry dates last and ties broken by created_at
ascending (the relation `lotOrder`); consequently, for a product holding
a lot expiring at E1, a lot expiring at E2 with E1 < E2 and a lot with no
expiry, depleting any quantity strictly below the E1 lot quantity mutates
only the E1 lot and leaves the other two lots unchanged. -/
theorem claim_C2_listAllocatable_order_and_frame (db : List Lot) (pid : String) :
    ((FindByProductIdOrderedByExpiry db pid).Perm (db.filter (allocPred pid))
      ∧ List.Sorted lotOrder (FindByProductIdOrderedByExpiry db pid)
      ∧ (∀ l : Lot, l ∈ FindByProductIdOrderedByExpiry db pid
          ↔ (l ∈ db ∧ l.product_id = pid
              ∧ (l.status = Status.active ∨ l.status = Status.near_expiry))))
    ∧ (∀ (l1 l2 l3 : Lot) (e1 e2 : ℤ) (q : ℚ),
        l1.product_id = pid → l2.product_id = pid → l3.product_id = pid →
        (l1.status = Status.active ∨ l1.status = Status.near_expiry) →
        (l2.status = Status.active ∨ l2.status = Status.near_expiry) →
        (l3.status = Status.active ∨ l3.status = Status.near_expiry) →
        l1.expiry_date = some e1 → l2.expiry_date = some e2 → l3.expiry_date = none →
        e1 < e2 → l2.id ≠ l1.id → l3.id ≠ l1.id →
        0 < q → q < l1.quantity →
        ReduceInventoryQuantity [l3, l2, l1] pid q
          = ([l3, l2, { l1 with quantity := l1.quantity - q }], none)) := by
  refine ⟨⟨List.perm_insertionSort _ _, List.sorted_insertionSort _ _, ?_⟩, ?_⟩
  · intro l
    unfold FindByProductIdOrderedByExpiry
    rw [List.mem_insertionSort, List.mem_filter]
    simp [allocPred, and_assoc]
  · rintro l1 l2 l3 e1 e2 q hprod1 hprod2 hprod3 hst1 hst2 hst3 he1 he2 he3 hee hne21 hne31
      hq0 hqlt
    have hp1 : allocPred pid l1 = true := by
      simp only [allocPred, decide_eq_true_eq]
      exact ⟨hprod1, hst1⟩
    have hp2 : allocPred pid l2 = true := by
      simp only [allocPred, decide_eq_true_eq]
      exact ⟨hprod2, hst2⟩
    have hp3 : allocPred pid l3 = true := by
      simp only [allocPred, decide_eq_true_eq]
      exact ⟨hprod3, hst3⟩
    have hn21 : ¬ lotOrder l2 l1 := by
      simp [lotOrder, allocLE, he2, he1]
      omega
    have hn31 : ¬ lotOrder l3 l1 := by
      simp [lotOrder, allocLE, he3, he1]
    have hn32 : ¬ lotOrder l3 l2 := by
      simp [lotOrder, allocLE, he3, he2]
    have hsort : FindByProductIdOrderedByExpiry [l3, l2, l1] pid = [l1, l2, l3] := by
      unfold FindByProductIdOrderedByExpiry
      rw [show List.filter (allocPred pid) [l3, l2, l1] = [l3, l2, l1] by
        simp [List.filter, hp1, hp2, hp3]]
      simp [List.insertionSort, List.orderedInsert, hn21, hn31, hn32]
    unfold ReduceInventoryQuantity
    rw [hsort]
    have hloop : depleteLoop [l1, l2, l3] q [l3, l2, l1]
        = ([l3, l2, { l1 with quantity := l1.quantity - q }], 0) := by
      simp [depleteLoop, not_le.mpr hq0, not_le.mpr hqlt, hne21, hne31]
    simp [hloop]

/-- Claim C3: GetTotalInventoryQuantity sums quantity over the lots of
the product whose status is active or near_expiry, expired lots
contributing nothing, and returns 0 rather than an error when the
product has no lots at all. -/
theorem claim_C3_available_quantity (db : List Lot) (pid : String) :
    GetTotalInventoryQuantity db pid
      = ((db.filter (fun l => decide (l.product_id = pid))).map
          (fun l => if l.status = Status.expired then 0 else l.quantity)).sum
    ∧ ((∀ l ∈ db, l.product_id ≠ pid) → GetTotalInventoryQuantity db pid = 0) := by
  constructor
  · induction db with
    | nil => rfl
    | cons l t ih =>
      unfold GetTotalInventoryQuantity at ih ⊢
      rcases hst : l.status with _ | _ | _ <;> by_cases hp : l.product_id = pid <;>
        simp [allocPred, hst, hp, ih, List.filter_cons]
  · intro h
    unfold GetTotalInventoryQuantity
    rw [show db.filter (allocPred pid) = [] from List.filter_eq_nil_iff.2 ?_]
    · rfl
    · intro l hl
      simp only [allocPred, decide_eq_true_eq, not_and]
      intro hprod
      exact absurd hprod (h l hl)

/-- Concrete lot expiring first, for the FIFO frame scenario. -/
def lotE1 : Lot := ⟨1, "p", 5, none, some 100, Status.active, "u", 0⟩

/-- Concrete lot expiring second, for the FIFO frame scenario. -/
def lotE2 : Lot := ⟨2, "p", 4, none, some 200, Status.active, "u", 0⟩

/-- Concrete lot with no expiry date, for the FIFO frame scenario. -/
def lotN : Lot := ⟨3, "p", 3, none, none, Status.active, "u", 0⟩

/-- Witness for claim C2 at the concrete three-lot scenario: depleting 1
unit of the 5-unit E1 lot mutates only that lot. -/
theorem claim_C2_witness :
    ReduceInventoryQuantity [lotN, lotE2, lotE1] "p" 1
      = ([lotN, lotE2, { lotE1 with quantity := lotE1.quantity - 1 }], none) :=
  (claim_C2_listAllocatable_order_and_frame [] "p").2 lotE1 lotE2 lotN 100 200 1
    rfl rfl rfl (Or.inl rfl) (Or.inl rfl) (Or.inl rfl) rfl rfl rfl
    (by decide) (by decide) (by decide) (by norm_num) (by norm_num [lotE1])

/-- Witness for claim C3: a product with zero lots has available
quantity 0. -/
theorem claim_C3_witness : GetTotalInventoryQuantity [] "p" = 0 :=
  (claim_C3_available_quantity [] "p").2 (by simp)

/-- Milliseconds in one day, the divisor 1000 * 60 * 60 * 24 used by the
status computation. -/
def oneDayMs : ℤ := 1000 * 60 * 60 * 24

/-- The quantity Math.ceil((expiryDate.getTime() - now.getTime()) /
(1000 * 60 * 60 * 24)) computed inline by InventoryUseCase.CreateInventory
(line 126) and CreateInventoryBatch (line 240). -/
def daysUntilExpiry (now e : ℤ) : ℤ := ⌈((e : ℚ) - (now : ℚ)) / (oneDayMs : ℚ)⌉

/-- The status derivation of InventoryUseCase.CreateInventory lines
120-135: active when no expiry date is given; otherwise expired when
daysUntilExpiry < 0, near_expiry when daysUntilExpiry ≤ 7 (the
nearExpiryDays constant), active otherwise. -/
def inventoryStatus (now : ℤ) (expiry_date : Option ℤ) : Status :=
  match expiry_date with
  | none => Status.active
  | some e =>
    if daysUntilExpiry now e < 0 then Status.expired
    else if daysUntilExpiry now e ≤ 7 then Status.near_expiry
    else Status.active

theorem daysUntilExpiry_sub_ms (now : ℤ) (k : ℤ) :
    daysUntilExpiry now (now + k * oneDayMs) = k := by
  unfold daysUntilExpiry
  rw [show ((now + k * oneDayMs : ℤ) : ℚ) - (now : ℚ) = (k : ℚ) * (oneDayMs : ℚ) by
    push_cast
    ring]
  rw [mul_div_assoc, div_self (by norm_num [oneDayMs]), mul_one, Int.ceil_intCast]

theorem daysUntilExpiry_one_second_past (now : ℤ) :
    daysUntilExpiry now (now - 1000) = 0 := by
  unfold daysUntilExpiry
  rw [show ((now - 1000 : ℤ) : ℚ) - (now : ℚ) = (-1000 : ℚ) by push_cast; ring]
  rw [Int.ceil_eq_iff]
  constructor <;> norm_num [oneDayMs]

/-- Claim C4, counterexample: a lot whose expiry date is exactly 1 second
in the past does not get status expired as the claim asserts; the code
computes daysUntilExpiry = ceil(-1000 ms / 1 day) = 0, which falls in the
near_expiry branch. -/
theorem claim_C4_counterexample :
    inventoryStatus 0 (some (-1000)) = Status.near_expiry
      ∧ inventoryStatus 0 (some (-1000)) ≠ Status.expired := by
  have hd : daysUntilExpiry 0 (-1000) = 0 := by
    have := daysUntilExpiry_one_second_past 0
    simpa using this
  have h : inventoryStatus 0 (some (-1000)) = Status.near_expiry := by
    simp [inventoryStatus, hd]
  exact ⟨h, by rw [h]; simp⟩

/-- Claim C4, amended: CreateLot computes the status once at creation
from daysUntilExpiry = ceil((expiry_date - now) / 1 day): no expiry date
gives active, daysUntilExpiry < 0 gives expired, 0 ≤ daysUntilExpiry ≤ 7
gives near_expiry, daysUntilExpiry > 7 gives active; a lot expiring
exactly 7 days out gets near_expiry and exactly 8 days out gets active,
but a lot whose expiry is 1 second in the past gets near_expiry, not
expired (daysUntilExpiry is 0 there; expired requires the expiry to be
at least one full day in the past). -/
theorem claim_C4_status_rule (now e : ℤ) :
    inventoryStatus now none = Status.active
    ∧ (daysUntilExpiry now e < 0 → inventoryStatus now (some e) = Status.expired)
    ∧ (0 ≤ daysUntilExpiry now e → daysUntilExpiry now e ≤ 7 →
        inventoryStatus now (some e) = Status.near_expiry)
    ∧ (7 < daysUntilExpiry now e → inventoryStatus now (some e) = Status.active)
    ∧ inventoryStatus now (some (now + 7 * oneDayMs)) = Status.near_expiry
    ∧ inventoryStatus now (some (now + 8 * oneDayMs)) = Status.active
    ∧ inventoryStatus now (some (now - 1000)) = Status.near_expiry := by
  refine ⟨rfl, ?_, ?_, ?_, ?_, ?_, ?_⟩
  · intro h
    simp [inventoryStatus, h]
  · intro h0 h7
    simp [inventoryStatus, not_lt.mpr h0, h7]
  · intro h
    have h0 : ¬ daysUntilExpiry now e < 0 := by omega
    have h7 : ¬ daysUntilExpiry now e ≤ 7 := by omega
    simp [inventoryStatus, h0, h7]
  · simp [inventoryStatus, daysUntilExpiry_sub_ms]
  · simp [inventoryStatus, daysUntilExpiry_sub_ms]
  · simp [inventoryStatus, daysUntilExpiry_one_second_past]

/-- Witness for the amended claim C4 at concrete instants: an expiry one
full day in the past is expired, and the three boundary instants behave
as stated. -/
theorem claim_C4_status_rule_witness :
    (daysUntilExpiry 0 (-oneDayMs) < 0 ∧ inventoryStatus 0 (some (-oneDayMs)) = Status.expired)
    ∧ inventoryStatus 0 (some (7 * oneDayMs)) = Status.near_expiry
    ∧ inventoryStatus 0 (some (8 * oneDayMs)) = Status.active
    ∧ inventoryStatus 0 (some (-1000)) = Status.near_expiry := by
  have hd : daysUntilExpiry 0 (-oneDayMs) < 0 := by
    rw [show (-oneDayMs : ℤ) = 0 + (-1) * oneDayMs by ring, daysUntilExpiry_sub_ms]
    norm_num
  have h7 := (claim_C4_status_rule 0 0).2.2.2.2.1
  have h8 := (claim_C4_status_rule 0 0).2.2.2.2.2.1
  have hpast := (claim_C4_status_rule 0 0).2.2.2.2.2.2
  have hexp := (claim_C4_status_rule 0 (-oneDayMs)).2.1 hd
  refine ⟨⟨hd, hexp⟩, ?_, ?_, ?_⟩
  · rw [show (7 * oneDayMs : ℤ) = 0 + 7 * oneDayMs by ring]
    exact h7
  · rw [show (8 * oneDayMs : ℤ) = 0 + 8 * oneDayMs by ring]
    exact h8
  · rw [show (-1000 : ℤ) = 0 - 1000 by norm_num]
    exact hpast

/-- Recogniser for the insufficient-inventory error shape, used to state
that a failure is not an InsufficientInventory failure. -/
def isInsufficient : Option DepleteError → Bool
  | some (DepleteError.insufficient _ _ _) => true
  | _ => false

/-- A concrete single lot of five units of product p, used by the
concrete scenarios below. -/
def sampleLot : Lot := ⟨1, "p", 5, none, none, Status.active, "u", 0⟩

theorem sample_alloc : FindByProductIdOrderedByExpiry [sampleLot] "p" = [sampleLot] := by
  decide

theorem sample_total : totalQ (FindByProductIdOrderedByExpiry [sampleLot] "p") = 5 := by
  rw [sample_alloc]
  norm_num [totalQ, sampleLot]

theorem sample_pos : ∀ l ∈ FindByProductIdOrderedByExpiry [sampleLot] "p", 0 < l.quantity := by
  rw [sample_alloc]
  intro l hl
  simp only [List.mem_singleton] at hl
  subst hl
  norm_num [sampleLot]

theorem sample_ne : FindByProductIdOrderedByExpiry [sampleLot] "p" ≠ [] := by
  rw [sample_alloc]
  simp

theorem reduce_nil (p : String) (q : ℚ) :
    ReduceInventoryQuantity [] p q = ([], some (DepleteError.noInventory p)) := by
  rfl

theorem reduce_sample : ReduceInventoryQuantity [sampleLot] "p" 5 = ([], none) := by
  have hloop : depleteLoop [sampleLot] 5 [sampleLot] = ([], 0) := by
    norm_num [depleteLoop, deleteLot, sampleLot]
  unfold ReduceInventoryQuantity
  rw [sample_alloc]
  norm_num [hloop]

/-- Claim C5, counterexample: for a product whose single allocatable lot
holds exactly 5 units, Deplete(p, 5) succeeds once, deleting the lot; the
second call then finds zero allocatable lots and fails with
ProductHasNoInventory (No inventory found), not with
InsufficientInventory as the claim states. -/
theorem claim_C5_counterexample :
    (ReduceInventoryQuantity [sampleLot] "p" 5 = ([], none))
    ∧ (ReduceInventoryQuantity (ReduceInventoryQuantity [sampleLot] "p" 5).1 "p" 5).2
        = some (DepleteError.noInventory "p")
    ∧ isInsufficient
        (ReduceInventoryQuantity (ReduceInventoryQuantity [sampleLot] "p" 5).1 "p" 5).2
        = false := by
  refine ⟨reduce_sample, ?_, ?_⟩ <;> rw [reduce_sample, reduce_nil] <;> rfl

/-- Claim C5, amended: Deplete is not idempotent: for a product whose
allocatable lots all carry positive quantity and total exactly 5, calling
Deplete(p, 5) twice in sequence succeeds the first time (consuming every
allocatable lot) and fails the second time — with ProductHasNoInventory,
since the first call deleted every allocatable lot — never succeeding
silently twice. -/
theorem claim_C5_not_idempotent (db : List Lot) (p : String)
    (hne : FindByProductIdOrderedByExpiry db p ≠ [])
    (hpos : ∀ l ∈ FindByProductIdOrderedByExpiry db p, 0 < l.quantity)
    (htot : totalQ (FindByProductIdOrderedByExpiry db p) = 5) :
    (ReduceInventoryQuantity db p 5).2 = none
    ∧ FindByProductIdOrderedByExpiry (ReduceInventoryQuantity db p 5).1 p = []
    ∧ (ReduceInventoryQuantity (ReduceInventoryQuantity db p 5).1 p 5).2
        = some (DepleteError.noInventory p) := by
  have hnn : ∀ l ∈ FindByProductIdOrderedByExpiry db p, 0 ≤ l.quantity :=
    fun l hl => le_of_lt (hpos l hl)
  have hloop := depleteLoop_deleteAll (FindByProductIdOrderedByExpiry db p) 5 db hnn
    (Or.inr ⟨htot, hpos⟩)
  rw [htot] at hloop
  have hempty : (FindByProductIdOrderedByExpiry db p).isEmpty = false := by
    rcases hs : FindByProductIdOrderedByExpiry db p with _ | ⟨a, t⟩
    · exact absurd hs hne
    · rfl
  have hfirst : ReduceInventoryQuantity db p 5
      = (deleteAll (FindByProductIdOrderedByExpiry db p) db, none) := by
    simp only [ReduceInventoryQuantity, hempty, Bool.false_eq_true, if_false, hloop]
    norm_num
  have hallocEmpty : FindByProductIdOrderedByExpiry (ReduceInventoryQuantity db p 5).1 p = [] := by
    rw [hfirst]
    exact alloc_deleteAll_eq_nil db p
  refine ⟨by rw [hfirst], hallocEmpty, ?_⟩
  rw [hfirst]
  have hE : FindByProductIdOrderedByExpiry
      (deleteAll (FindByProductIdOrderedByExpiry db p) db) p = [] :=
    alloc_deleteAll_eq_nil db p
  simp [ReduceInventoryQuantity, hE]

/-- Claim C10: when Deplete fails with InsufficientInventory (positive
total allocatable quantity smaller than the requested quantity), the lots
walked before the failure have already been deleted and are not restored:
after the error the product has no allocatable lots left, so the failed
depletion mutates the ledger state. -/
theorem claim_C10_failed_deplete_mutates (db : List Lot) (p : String) (q : ℚ)
    (hne : FindByProductIdOrderedByExpiry db p ≠ [])
    (hnn : ∀ l ∈ FindByProductIdOrderedByExpiry db p, 0 ≤ l.quantity)
    (hpos : 0 < totalQ (FindByProductIdOrderedByExpiry db p))
    (hlt : totalQ (FindByProductIdOrderedByExpiry db p) < q) :
    (ReduceInventoryQuantity db p q).2
      = some (DepleteError.insufficient q (totalQ (FindByProductIdOrderedByExpiry db p))
          (q - totalQ (FindByProductIdOrderedByExpiry db p)))
    ∧ FindByProductIdOrderedByExpiry (ReduceInventoryQuantity db p q).1 p = [] := by
  have hloop := depleteLoop_deleteAll (FindByProductIdOrderedByExpiry db p) q db hnn (Or.inl hlt)
  have hempty : (FindByProductIdOrderedByExpiry db p).isEmpty = false := by
    rcases hs : FindByProductIdOrderedByExpiry db p with _ | ⟨a, t⟩
    · exact absurd hs hne
    · rfl
  have hsnd : (0 : ℚ) < q - totalQ (FindByProductIdOrderedByExpiry db p) := by linarith
  have hred : ReduceInventoryQuantity db p q
      = (deleteAll (FindByProductIdOrderedByExpiry db p) db,
          some (DepleteError.insufficient q (totalQ (FindByProductIdOrderedByExpiry db p))
            (q - totalQ (FindByProductIdOrderedByExpiry db p)))) := by
    simp only [ReduceInventoryQuantity, hempty, Bool.false_eq_true, if_false, hloop]
    simp only [gt_iff_lt, hsnd, if_true]
    congr 2
    ring_nf
  constructor
  · rw [hred]
  · rw [hred]
    exact alloc_deleteAll_eq_nil db p

/-- Witness for the amended claim C5: the single-lot ledger with 5 units
satisfies the hypotheses, the first depletion succeeds and the second
fails with the no-inventory error. -/
theorem claim_C5_not_idempotent_witness :
    (ReduceInventoryQuantity [sampleLot] "p" 5).2 = none
    ∧ (ReduceInventoryQuantity (ReduceInventoryQuantity [sampleLot] "p" 5).1 "p" 5).2
        = some (DepleteError.noInventory "p") := by
  have h := claim_C5_not_idempotent [sampleLot] "p" sample_ne sample_pos sample_total
  exact ⟨h.1, h.2.2⟩

/-- Witness for claim C10: a single 5-unit lot with 6 requested fails
reporting requested 6, available 5, missing 1, and leaves no allocatable
lots behind. -/
theorem claim_C10_failed_deplete_mutates_witness :
    (ReduceInventoryQuantity [sampleLot] "p" 6).2
      = some (DepleteError.insufficient 6
          (totalQ (FindByProductIdOrderedByExpiry [sampleLot] "p"))
          (6 - totalQ (FindByProductIdOrderedByExpiry [sampleLot] "p")))
    ∧ FindByProductIdOrderedByExpiry (ReduceInventoryQuantity [sampleLot] "p" 6).1 "p" = [] :=
  claim_C10_failed_deplete_mutates [sampleLot] "p" 6
    sample_ne (fun l hl => le_of_lt (sample_pos l hl))
    (by rw [sample_total]; norm_num)
    (by rw [sample_total]; norm_num)

/-- The component view of a JavaScript Date as read by the generators:
getFullYear, getMonth (0-based), getDate, getHours, getMinutes,
getSeconds. -/
structure JsDate where
  year : Nat
  month : Nat
  day : Nat
  hours : Nat
  minutes : Nat
  seconds : Nat
deriving DecidableEq, Repr

/-- toString(n).padStart(2, turning a one-digit numeric field into a
two-digit zero-padded string, as used by both generators. -/
def padStart2 (n : Nat) : String :=
  let s := toString n
  if s.length < 2 then "0" ++ s else s

/-- ProductUseCase.generateSku (lines 22-40): the timestamp concatenates
full year, padded month (getMonth() + 1), day, hours and seconds — no
minutes — and the SKU is storeCode-categoryCode-timestamp. -/
def generateSku (storeCode categoryCode : String) (now : JsDate) : String :=
  let year := toString now.year
  let month := padStart2 (now.month + 1)
  let day := padStart2 now.day
  let hours := padStart2 now.hours
  let seconds := padStart2 now.seconds
  let timestamp := year ++ month ++ day ++ hours ++ seconds
  storeCode ++ "-" ++ categoryCode ++ "-" ++ timestamp

/-- OrderUseCase.generateInvoiceNumber (lines 34-50): uppercased store
code followed by two-digit year (toString slice of the last two
characters), padded month, day, hours, minutes and seconds. -/
def generateInvoiceNumber (storeCode : String) (now : JsDate) : String :=
  let year := (toString now.year).takeRight 2
  let month := padStart2 (now.month + 1)
  let day := padStart2 now.day
  let hours := padStart2 now.hours
  let minutes := padStart2 now.minutes
  let seconds := padStart2 now.seconds
  storeCode.toUpper ++ year ++ month ++ day ++ hours ++ minutes ++ seconds

/-- Claim C9: generateSku produces exactly
storeCode-categoryCode-yyyyMMddHHss, a timestamp holding year, month,
day, hour and seconds but no minutes (it is invariant under changing the
minutes), while the invoice number is exactly the uppercased store code
followed by yyMMddHHmmss, which does depend on the minutes. -/
theorem claim_C9_sku_and_invoice_format (s c : String) (d : JsDate) :
    generateSku s c d
      = s ++ "-" ++ c ++ "-" ++ (toString d.year ++ padStart2 (d.month + 1)
          ++ padStart2 d.day ++ padStart2 d.hours ++ padStart2 d.seconds)
    ∧ (∀ m : Nat, generateSku s c { d with minutes := m } = generateSku s c d)
    ∧ generateInvoiceNumber s d
      = s.toUpper ++ ((toString d.year).takeRight 2 ++ padStart2 (d.month + 1)
          ++ padStart2 d.day ++ padStart2 d.hours ++ padStart2 d.minutes
          ++ padStart2 d.seconds)
    ∧ generateInvoiceNumber "st" ⟨2025, 0, 1, 1, 5, 6⟩
        ≠ generateInvoiceNumber "st" ⟨2025, 0, 1, 1, 6, 6⟩
    ∧ generateSku "st" "cat" ⟨2025, 0, 1, 1, 5, 6⟩
        = generateSku "st" "cat" ⟨2025, 0, 1, 1, 6, 6⟩ := by
  refine ⟨?_, ?_, ?_, ?_, ?_⟩
  · simp [generateSku]
  · intro m
    rfl
  · simp [generateInvoiceNumber, String.append_assoc]
  · intro h
    have h2 := congrArg String.data h
    simp only [generateInvoiceNumber, String.data_append, List.append_assoc] at h2
    exact absurd (List.append_cancel_left h2) (by decide)
  · rfl

/-- A catalog product as read by the use cases: id, name, owning store
and selling price (src/models and ProductRepository). -/
structure Product where
  id : String
  name : String
  store_id : Option String
  selling_price : ℚ
deriving DecidableEq, Repr

/-- A store row: id, name and the optional short store_code. -/
structure Store where
  id : String
  name : String
  store_code : Option String
deriving DecidableEq, Repr

/-- A user row as read by Checkout: id and optional home store. -/
structure UserRec where
  id : String
  store_id : Option String
deriving DecidableEq, Repr

/-- One checkout cart item (OrderUseCase.CheckoutItem). -/
structure CheckoutItem where
  product_id : String
  quantity : ℚ
deriving DecidableEq, Repr

/-- The checkout request body (OrderUseCase.CheckoutRequest). -/
structure CheckoutRequest where
  customer_name : Option String
  grand_total : ℚ
  items : List CheckoutItem
deriving DecidableEq, Repr

/-- An order row created by Checkout. -/
structure Order where
  invoice_number : String
  customer_name : Option String
  total_price : ℚ
  store_id : String
  created_by : String
deriving DecidableEq, Repr

/-- An order line created together with the order. -/
structure OrderItem where
  product_id : String
  quantity : ℚ
  total_price : ℚ
deriving DecidableEq, Repr

/-- The persistent state touched by Checkout: the inventories table and
the orders and order_items tables. -/
structure DBState where
  lots : List Lot
  orders : List Order
  orderItems : List OrderItem
deriving DecidableEq, Repr

/-- The failure modes of OrderUseCase.Checkout, keyed by the throw sites
of the source. -/
inductive CheckoutErr where
  | itemsRequired
  | invalidGrandTotal
  | userNotFound
  | userHasNoStore
  | storeNotFound
  | storeCodeMissing
  | productIdRequired
  | invalidQuantity (productId : String)
  | productNotFound (productId : String)
  | productNotInStore (productName : String)
  | insufficientStock (productName : String)
  | grandTotalMismatch (calculated provided : ℚ)
  | depletionFailed (productId : String) (e : DepleteError)
deriving DecidableEq, Repr

/-- Rounding a nonnegative rational to the nearest integer with ties to
even, the tie-breaking rule of IEEE 754 round-to-nearest. -/
def roundHalfEven (y : ℚ) : ℤ :=
  if y - ⌊y⌋ < 1 / 2 then ⌊y⌋
  else if 1 / 2 < y - ⌊y⌋ then ⌊y⌋ + 1
  else if Even ⌊y⌋ then ⌊y⌋ else ⌊y⌋ + 1

/-- The exact rational value of rounding a rational to the nearest IEEE
binary64 double (round to nearest, ties to even): the unit in the last
place is 2^(e - 52) where e is the binade exponent, clamped at -1022 so
that subnormal values round on the fixed 2^(-1074) grid.  Overflow to
infinity is not modelled; every value arising in this development is far
below it.  JavaScript numbers are IEEE binary64, so this is the rounding
performed by every arithmetic operation and numeric literal of the
source. -/
def roundF (x : ℚ) : ℚ :=
  if x = 0 then 0
  else
    (roundHalfEven (|x| / (2 : ℚ) ^ (max (Int.log 2 |x|) (-1022) - 52)) : ℚ)
      * (2 : ℚ) ^ (max (Int.log 2 |x|) (-1022) - 52)
      * (if x < 0 then -1 else 1)

/-- IEEE binary64 multiplication of two doubles given by their exact
rational values: the exact product, rounded. -/
def mulF (a b : ℚ) : ℚ := roundF (a * b)

/-- IEEE binary64 addition: the exact sum, rounded. -/
def addF (a b : ℚ) : ℚ := roundF (a + b)

/-- IEEE binary64 subtraction: the exact difference, rounded. -/
def subF (a b : ℚ) : ℚ := roundF (a - b)

/-- The reconcile condition of OrderUseCase.Checkout line 134:
Math.abs(calculatedTotal - data.grand_total) > 0.01 evaluated in
JavaScript number (IEEE binary64) arithmetic: the subtraction rounds,
Math.abs and the comparison are exact, and the literal 0.01 denotes the
double nearest 1/100. -/
def mismatchCheck (calculated provided : ℚ) : Bool :=
  decide (|subF calculated provided| > roundF (1 / 100))

/-- The per-item validation loop of OrderUseCase.Checkout lines 96-131:
requires product_id (empty string is falsy) and positive quantity,
resolves the product, requires it to belong to the acting store, checks
the requested quantity against GetTotalInventoryQuantity, and accumulates
the order line whose total is the IEEE binary64 product
selling_price * quantity. -/
def validateItemsList (catalog : List Product) (lots : List Lot) (storeId : String) :
    List CheckoutItem → Except CheckoutErr (List OrderItem)
  | [] => Except.ok []
  | item :: rest =>
    if item.product_id = "" then Except.error CheckoutErr.productIdRequired
    else if item.quantity ≤ 0 then Except.error (CheckoutErr.invalidQuantity item.product_id)
    else
      match catalog.find? (fun pr => decide (pr.id = item.product_id)) with
      | none => Except.error (CheckoutErr.productNotFound item.product_id)
      | some product =>
        if product.store_id ≠ some storeId then
          Except.error (CheckoutErr.productNotInStore product.name)
        else
          let availableQuantity := GetTotalInventoryQuantity lots item.product_id
          if availableQuantity < item.quantity then
            Except.error (CheckoutErr.insufficientStock product.name)
          else
            match validateItemsList catalog lots storeId rest with
            | Except.error e => Except.error e
            | Except.ok itemsAcc =>
              Except.ok (⟨item.product_id, item.quantity,
                mulF product.selling_price item.quantity⟩ :: itemsAcc)

/-- The item validation of Checkout together with the running
calculatedTotal: the source starts at 0 and adds each line total in
order with a JavaScript += , i.e. a left fold of IEEE binary64
additions over the line totals. -/
def validateItems (catalog : List Product) (lots : List Lot) (storeId : String)
    (items : List CheckoutItem) : Except CheckoutErr (List OrderItem × ℚ) :=
  match validateItemsList catalog lots storeId items with
  | Except.error e => Except.error e
  | Except.ok lines =>
    Except.ok (lines, (lines.map (fun l => l.total_price)).foldl addF 0)

theorem roundHalfEven_intCast (m : ℤ) : roundHalfEven (m : ℚ) = m := by
  unfold roundHalfEven
  rw [Int.floor_intCast]
  norm_num

theorem roundF_pos_eq (x : ℚ) (e : ℤ) (hx : 0 < x) (h1 : (2 : ℚ) ^ e ≤ x)
    (h2 : x < (2 : ℚ) ^ (e + 1)) (he : -1022 ≤ e) :
    roundF x = (roundHalfEven (x / (2 : ℚ) ^ (e - 52)) : ℚ) * (2 : ℚ) ^ (e - 52) := by
  have h1c : ((2 : ℕ) : ℚ) ^ e ≤ x := by exact_mod_cast h1
  have h2c : x < ((2 : ℕ) : ℚ) ^ (e + 1) := by exact_mod_cast h2
  have hlog : Int.log 2 x = e := by
    have hle : e ≤ Int.log 2 x := (Int.zpow_le_iff_le_log (by norm_num) hx).1 h1c
    have hlt : Int.log 2 x < e + 1 := (Int.lt_zpow_iff_log_lt (by norm_num) hx).1 h2c
    omega
  unfold roundF
  rw [if_neg (ne_of_gt hx), abs_of_pos hx, hlog, max_eq_left he,
    if_neg (not_lt.mpr (le_of_lt hx)), mul_one]

theorem roundF_zero : roundF 0 = 0 := rfl

theorem roundF_neg (x : ℚ) (hx : 0 < x) : roundF (-x) = -roundF x := by
  unfold roundF
  rw [if_neg (neg_ne_zero.mpr (ne_of_gt hx)), if_neg (ne_of_gt hx), abs_neg,
    if_pos (neg_lt_zero.mpr hx), if_neg (not_lt.mpr (le_of_lt hx))]
  ring

theorem roundF_eq_self (x : ℚ) (e m : ℤ) (hx : 0 < x) (h1 : (2 : ℚ) ^ e ≤ x)
    (h2 : x < (2 : ℚ) ^ (e + 1)) (he : -1022 ≤ e)
    (hm : x = (m : ℚ) * (2 : ℚ) ^ (e - 52)) : roundF x = x := by
  rw [roundF_pos_eq x e hx h1 h2 he]
  rw [show x / (2 : ℚ) ^ (e - 52) = (m : ℚ) by
    rw [hm, mul_div_assoc, div_self (by positivity), mul_one]]
  rw [roundHalfEven_intCast, ← hm]

theorem rF_2 : roundF 2 = 2 :=
  roundF_eq_self 2 1 (2 ^ 52) (by norm_num) (by norm_num) (by norm_num) (by norm_num)
    (by norm_num)

theorem rF_5 : roundF 5 = 5 :=
  roundF_eq_self 5 2 (5 * 2 ^ 50) (by norm_num) (by norm_num) (by norm_num) (by norm_num)
    (by norm_num)

theorem rF_10 : roundF 10 = 10 :=
  roundF_eq_self 10 3 (5 * 2 ^ 50) (by norm_num) (by norm_num) (by norm_num) (by norm_num)
    (by norm_num)

theorem rF_total : roundF (7036170730324623 / 2 ^ 46) = 7036170730324623 / 2 ^ 46 :=
  roundF_eq_self _ 6 7036170730324623 (by norm_num) (by norm_num) (by norm_num) (by norm_num)
    (by norm_num)

theorem rF_dbl001 : roundF (5764607523034235 / 2 ^ 59) = 5764607523034235 / 2 ^ 59 :=
  roundF_eq_self _ (-7) 5764607523034235 (by norm_num) (by norm_num) (by norm_num)
    (by norm_num) (by norm_num)

theorem rF_diff : roundF (5764607523037184 / 2 ^ 59) = 5764607523037184 / 2 ^ 59 :=
  roundF_eq_self _ (-7) 5764607523037184 (by norm_num) (by norm_num) (by norm_num)
    (by norm_num) (by norm_num)

theorem rF_dbl0011 : roundF (6341068275337658 / 2 ^ 59) = 6341068275337658 / 2 ^ 59 :=
  roundF_eq_self _ (-7) 6341068275337658 (by norm_num) (by norm_num) (by norm_num)
    (by norm_num) (by norm_num)

theorem rF_49995 : roundF (49995 / 1000) = 7036170730324623 / 2 ^ 47 := by
  rw [roundF_pos_eq (49995 / 1000) 5 (by norm_num) (by norm_num) (by norm_num) (by norm_num)]
  rw [show ((49995 : ℚ) / 1000) / (2 : ℚ) ^ ((5 : ℤ) - 52) = 7036170730324623360 / 1000 by
    norm_num]
  rw [show roundHalfEven ((7036170730324623360 : ℚ) / 1000) = 7036170730324623 by
    unfold roundHalfEven
    rw [show ⌊(7036170730324623360 : ℚ) / 1000⌋ = 7036170730324623 by norm_num]
    norm_num]
  norm_num

theorem rF_9999 : roundF (9999 / 100) = 7036170730324623 / 2 ^ 46 := by
  rw [roundF_pos_eq (9999 / 100) 6 (by norm_num) (by norm_num) (by norm_num) (by norm_num)]
  rw [show ((9999 : ℚ) / 100) / (2 : ℚ) ^ ((6 : ℤ) - 52) = 703617073032462336 / 100 by
    norm_num]
  rw [show roundHalfEven ((703617073032462336 : ℚ) / 100) = 7036170730324623 by
    unfold roundHalfEven
    rw [show ⌊(703617073032462336 : ℚ) / 100⌋ = 7036170730324623 by norm_num]
    norm_num]
  norm_num

theorem rF_001 : roundF (1 / 100) = 5764607523034235 / 2 ^ 59 := by
  rw [roundF_pos_eq (1 / 100) (-7) (by norm_num) (by norm_num) (by norm_num) (by norm_num)]
  rw [show ((1 : ℚ) / 100) / (2 : ℚ) ^ ((-7 : ℤ) - 52) = 576460752303423488 / 100 by
    norm_num]
  rw [show roundHalfEven ((576460752303423488 : ℚ) / 100) = 5764607523034235 by
    unfold roundHalfEven
    rw [show ⌊(576460752303423488 : ℚ) / 100⌋ = 5764607523034234 by norm_num]
    norm_num]
  norm_num

theorem rF_002 : roundF (2 / 100) = 5764607523034235 / 2 ^ 58 := by
  rw [roundF_pos_eq (2 / 100) (-6) (by norm_num) (by norm_num) (by norm_num) (by norm_num)]
  rw [show ((2 : ℚ) / 100) / (2 : ℚ) ^ ((-6 : ℤ) - 52) = 576460752303423488 / 100 by
    norm_num]
  rw [show roundHalfEven ((576460752303423488 : ℚ) / 100) = 5764607523034235 by
    unfold roundHalfEven
    rw [show ⌊(576460752303423488 : ℚ) / 100⌋ = 5764607523034234 by norm_num]
    norm_num]
  norm_num

theorem rF_0011 : roundF (11 / 1000) = 6341068275337658 / 2 ^ 59 := by
  rw [roundF_pos_eq (11 / 1000) (-7) (by norm_num) (by norm_num) (by norm_num) (by norm_num)]
  rw [show ((11 : ℚ) / 1000) / (2 : ℚ) ^ ((-7 : ℤ) - 52) = 6341068275337658368 / 1000 by
    norm_num]
  rw [show roundHalfEven ((6341068275337658368 : ℚ) / 1000) = 6341068275337658 by
    unfold roundHalfEven
    rw [show ⌊(6341068275337658368 : ℚ) / 1000⌋ = 6341068275337658 by norm_num]
    norm_num]
  norm_num

theorem cart_total_eval :
    addF 0 (mulF (roundF (49995 / 1000)) 2) = 7036170730324623 / 2 ^ 46 := by
  rw [mulF, rF_49995,
    show (7036170730324623 / 2 ^ 47 : ℚ) * 2 = 7036170730324623 / 2 ^ 46 by ring,
    rF_total, addF, zero_add, rF_total]

theorem cart_diff_eval :
    subF (7036170730324623 / 2 ^ 46) 100 = -(5764607523037184 / 2 ^ 59) := by
  rw [subF,
    show (7036170730324623 / 2 ^ 46 : ℚ) - 100 = -(5764607523037184 / 2 ^ 59) by norm_num,
    roundF_neg _ (by norm_num), rF_diff]

theorem cart_mismatch_true :
    mismatchCheck (addF 0 (mulF (roundF (49995 / 1000)) 2)) 100 = true := by
  simp only [mismatchCheck, cart_total_eval, cart_diff_eval, rF_001, decide_eq_true_eq]
  rw [abs_neg, abs_of_pos (by norm_num)]
  norm_num

theorem sub_002_001 :
    |subF (roundF (2 / 100)) (roundF (1 / 100))| = roundF (1 / 100) := by
  rw [subF, rF_002, rF_001,
    show (5764607523034235 / 2 ^ 58 : ℚ) - 5764607523034235 / 2 ^ 59
      = 5764607523034235 / 2 ^ 59 by ring,
    rF_dbl001, abs_of_pos (by norm_num)]

theorem sub_0011 :
    |subF (6341068275337658 / 2 ^ 58) (roundF (11 / 1000))| = roundF (11 / 1000) := by
  rw [subF, rF_0011,
    show (6341068275337658 / 2 ^ 58 : ℚ) - 6341068275337658 / 2 ^ 59
      = 6341068275337658 / 2 ^ 59 by ring,
    rF_dbl0011, abs_of_pos (by norm_num)]

/-- The post-commit depletion loop of OrderUseCase.Checkout lines
151-170: for each item in order, call ReduceInventoryQuantity; on the
first failure stop and report it, keeping the mutations already made
(including those of the failing call). -/
def depleteItems (lots : List Lot) :
    List CheckoutItem → List Lot × Option (String × DepleteError)
  | [] => (lots, none)
  | item :: rest =>
    let res := ReduceInventoryQuantity lots item.product_id item.quantity
    match res.2 with
    | none => depleteItems res.1 rest
    | some e => (res.1, some (item.product_id, e))

/-- OrderUseCase.Checkout (lines 52-174): validates the request, resolves
the acting user, their store and its code, validates the items, checks
the grand total within the 0.01 tolerance, commits the order and its
order lines (OrderRepository.Create runs in one transaction), then
depletes inventory per item; a depletion failure is surfaced after the
order is already committed and nothing is rolled back. -/
def Checkout (users : List UserRec) (stores : List Store) (catalog : List Product)
    (now : JsDate) (req : CheckoutRequest) (userId : String) (st : DBState) :
    DBState × Except CheckoutErr Order :=
  if req.items = [] then (st, Except.error CheckoutErr.itemsRequired)
  else if req.grand_total ≤ 0 then (st, Except.error CheckoutErr.invalidGrandTotal)
  else
    match users.find? (fun u => decide (u.id = userId)) with
    | none => (st, Except.error CheckoutErr.userNotFound)
    | some user =>
      match user.store_id with
      | none => (st, Except.error CheckoutErr.userHasNoStore)
      | some storeId =>
        match stores.find? (fun s => decide (s.id = storeId)) with
        | none => (st, Except.error CheckoutErr.storeNotFound)
        | some store =>
          match store.store_code with
          | none => (st, Except.error CheckoutErr.storeCodeMissing)
          | some storeCode =>
            match validateItems catalog st.lots storeId req.items with
            | Except.error e => (st, Except.error e)
            | Except.ok (orderItems, calculatedTotal) =>
              if mismatchCheck calculatedTotal req.grand_total then
                (st, Except.error (CheckoutErr.grandTotalMismatch calculatedTotal req.grand_total))
              else
                let order : Order :=
                  { invoice_number := generateInvoiceNumber storeCode now,
                    customer_name := req.customer_name,
                    total_price := calculatedTotal,
                    store_id := storeId,
                    created_by := userId }
                let st1 : DBState :=
                  { st with orders := st.orders ++ [order],
                            orderItems := st.orderItems ++ orderItems }
                let res := depleteItems st1.lots req.items
                let st2 : DBState := { st1 with lots := res.1 }
                match res.2 with
                | some pe => (st2, Except.error (CheckoutErr.depletionFailed pe.1 pe.2))
                | none => (st2, Except.ok order)

theorem checkout_commit_eq (users : List UserRec) (stores : List Store)
    (catalog : List Product) (now : JsDate) (req : CheckoutRequest) (userId : String)
    (st : DBState) (user : UserRec) (storeId : String) (store : Store) (storeCode : String)
    (lines : List OrderItem) (c : ℚ)
    (hitems : ¬ req.items = [])
    (hgt : ¬ req.grand_total ≤ 0)
    (huser : users.find? (fun u => decide (u.id = userId)) = some user)
    (hustore : user.store_id = some storeId)
    (hstore : stores.find? (fun s => decide (s.id = storeId)) = some store)
    (hcode : store.store_code = some storeCode)
    (hval : validateItems catalog st.lots storeId req.items = Except.ok (lines, c))
    (hM : mismatchCheck c req.grand_total = false) :
    Checkout users stores catalog now req userId st
      = ({ lots := (depleteItems st.lots req.items).1,
           orders := st.orders
             ++ [⟨generateInvoiceNumber storeCode now, req.customer_name, c, storeId, userId⟩],
           orderItems := st.orderItems ++ lines },
         match (depleteItems st.lots req.items).2 with
         | some pe => Except.error (CheckoutErr.depletionFailed pe.1 pe.2)
         | none =>
             Except.ok ⟨generateInvoiceNumber storeCode now, req.customer_name, c,
               storeId, userId⟩) := by
  simp only [Checkout, if_neg hitems, if_neg hgt, huser, hustore, hstore, hcode, hval, hM,
    Bool.false_eq_true, if_false]
  rcases hdep : (depleteItems st.lots req.items).2 with _ | pe <;> rfl

/-- Claim C6, counterexample: the cart of 2 units at selling_price
49.995 against client grand_total 100.00, evaluated in the IEEE binary64
arithmetic of JavaScript numbers, does not pass: the computed total is
fl(0 + fl(49.995 * 2)) = 7036170730324623 / 2^46 = 99.9900000000000019...,
its rounded difference from 100 has absolute value
5764607523037184 / 2^59 = 0.0100000000000051..., which exceeds the
double nearest 0.01 (5764607523034235 / 2^59), so line 134 throws
GrandTotalMismatch on the cart the claim says must pass; likewise the
nominal exactly-0.01 difference (the double nearest 99.99 against 100)
fails rather than passes. -/
theorem claim_C6_counterexample :
    addF 0 (mulF (roundF (49995 / 1000)) 2) = 7036170730324623 / 2 ^ 46
    ∧ |subF (addF 0 (mulF (roundF (49995 / 1000)) 2)) 100| = 5764607523037184 / 2 ^ 59
    ∧ roundF (1 / 100) = 5764607523034235 / 2 ^ 59
    ∧ (5764607523037184 / 2 ^ 59 : ℚ) > 5764607523034235 / 2 ^ 59
    ∧ mismatchCheck (addF 0 (mulF (roundF (49995 / 1000)) 2)) 100 = true
    ∧ mismatchCheck (roundF (9999 / 100)) 100 = true := by
  refine ⟨cart_total_eval, ?_, rF_001, by norm_num, cart_mismatch_true, ?_⟩
  · rw [cart_total_eval, cart_diff_eval, abs_neg, abs_of_pos (by norm_num)]
  · simp only [mismatchCheck, rF_9999, cart_diff_eval, rF_001, decide_eq_true_eq]
    rw [abs_neg, abs_of_pos (by norm_num)]
    norm_num

/-- Claim C6, amended: Checkout fails with GrandTotalMismatch exactly
when its embedded reconcile test fires, and that test, evaluated in the
IEEE binary64 arithmetic of JavaScript numbers, holds exactly when the
rounded absolute difference between the computed total and the client
grand_total exceeds the double nearest 0.01: a computed difference
exactly equal to that double passes and one equal to the double nearest
0.011 fails; but the cart of 2 units at selling_price 49.995 with
grand_total 100.00 computes 99.9900000000000019..., its difference from
100 is 0.0100000000000051... > 0.01, and it therefore fails with
GrandTotalMismatch rather than passing. -/
theorem claim_C6_grand_total_float (c g : ℚ) :
    (mismatchCheck c g = true ↔ |subF c g| > roundF (1 / 100))
    ∧ (|subF c g| = roundF (1 / 100) → mismatchCheck c g = false)
    ∧ (|subF c g| = roundF (11 / 1000) → mismatchCheck c g = true)
    ∧ mismatchCheck (addF 0 (mulF (roundF (49995 / 1000)) 2)) 100 = true
    ∧ (∀ (users : List UserRec) (stores : List Store) (catalog : List Product)
        (now : JsDate) (req : CheckoutRequest) (userId : String) (st : DBState)
        (user : UserRec) (storeId : String) (store : Store) (storeCode : String)
        (lines : List OrderItem) (c2 : ℚ),
        ¬ req.items = [] → ¬ req.grand_total ≤ 0 →
        users.find? (fun u => decide (u.id = userId)) = some user →
        user.store_id = some storeId →
        stores.find? (fun s => decide (s.id = storeId)) = some store →
        store.store_code = some storeCode →
        validateItems catalog st.lots storeId req.items = Except.ok (lines, c2) →
        ((Checkout users stores catalog now req userId st).2
            = Except.error (CheckoutErr.grandTotalMismatch c2 req.grand_total)
          ↔ mismatchCheck c2 req.grand_total = true)) := by
  refine ⟨by simp [mismatchCheck], ?_, ?_, cart_mismatch_true, ?_⟩
  · intro h
    simp only [mismatchCheck, decide_eq_false_iff_not, h]
    exact lt_irrefl _
  · intro h
    simp only [mismatchCheck, decide_eq_true_eq, h]
    rw [rF_0011, rF_001]
    norm_num
  · intro users stores catalog now req userId st user storeId store storeCode lines c2
      hitems hgt huser hustore hstore hcode hval
    constructor
    · intro h
      by_cases hM : mismatchCheck c2 req.grand_total
      · exact hM
      · exfalso
        have hMf : mismatchCheck c2 req.grand_total = false := by
          simpa using hM
        rw [checkout_commit_eq users stores catalog now req userId st user storeId store
          storeCode lines c2 hitems hgt huser hustore hstore hcode hval hMf] at h
        rcases hdep : (depleteItems st.lots req.items).2 with _ | pe <;>
          rw [hdep] at h <;> simp at h
    · intro hM
      simp only [Checkout, if_neg hitems, if_neg hgt, huser, hustore, hstore, hcode, hval,
        hM, if_true]

/-- Claim C7: once the order and its order lines have been committed and
a depletion call fails, Checkout surfaces the depletion error but the
committed order and its lines remain persisted — the final state keeps
the appended order and order lines, and the inventory state is the
result of the partial depletion walk, with earlier successful depletions
not undone. -/
theorem claim_C7_no_rollback_on_depletion_failure (users : List UserRec)
    (stores : List Store) (catalog : List Product) (now : JsDate) (req : CheckoutRequest)
    (userId : String) (st : DBState) (user : UserRec) (storeId : String) (store : Store)
    (storeCode : String) (lines : List OrderItem) (c : ℚ) (lots2 : List Lot)
    (pid : String) (de : DepleteError)
    (hitems : ¬ req.items = [])
    (hgt : ¬ req.grand_total ≤ 0)
    (huser : users.find? (fun u => decide (u.id = userId)) = some user)
    (hustore : user.store_id = some storeId)
    (hstore : stores.find? (fun s => decide (s.id = storeId)) = some store)
    (hcode : store.store_code = some storeCode)
    (hval : validateItems catalog st.lots storeId req.items = Except.ok (lines, c))
    (hM : mismatchCheck c req.grand_total = false)
    (hdep : depleteItems st.lots req.items = (lots2, some (pid, de))) :
    Checkout users stores catalog now req userId st
      = ({ lots := lots2,
           orders := st.orders
             ++ [⟨generateInvoiceNumber storeCode now, req.customer_name, c, storeId, userId⟩],
           orderItems := st.orderItems ++ lines },
         Except.error (CheckoutErr.depletionFailed pid de)) := by
  rw [checkout_commit_eq users stores catalog now req userId st user storeId store storeCode
    lines c hitems hgt huser hustore hstore hcode hval hM, hdep]

/-- Concrete acting user for the checkout scenarios. -/
def userC : UserRec := ⟨"u", some "s"⟩

/-- Concrete store with store code sc for the checkout scenarios. -/
def storeC : Store := ⟨"s", "Shop", some "sc"⟩

/-- Concrete checkout instant. -/
def dateC : JsDate := ⟨2025, 0, 1, 1, 5, 6⟩

/-- Concrete unit-price product for the partial-depletion scenario. -/
def productP : Product := ⟨"p", "Widget", some "s", 1⟩

/-- Concrete cart ordering 5 + 5 units of the 5-unit product: each item
passes the availability check read from the untouched ledger, the second
depletion then fails. -/
def reqC7 : CheckoutRequest := ⟨none, 10, [⟨"p", 5⟩, ⟨"p", 5⟩]⟩

/-- Concrete checkout database state for the partial-depletion
scenario. -/
def stC7 : DBState := ⟨[sampleLot], [], []⟩

/-- Witness for claim C7: the 5 + 5 cart against a single 5-unit lot
commits the order and both lines, the first depletion empties the
ledger, the second fails, and the final state keeps the order, the lines
and the emptied ledger while the depletion error is surfaced. -/
theorem claim_C7_witness :
    Checkout [userC] [storeC] [productP] dateC reqC7 "u" stC7
      = ({ lots := [],
           orders := [⟨generateInvoiceNumber "sc" dateC, none, 10, "s", "u"⟩],
           orderItems := [⟨"p", 5, 5⟩, ⟨"p", 5, 5⟩] },
         Except.error (CheckoutErr.depletionFailed "p" (DepleteError.noInventory "p"))) := by
  have hmul : mulF 1 5 = 5 := by
    rw [mulF, show (1 : ℚ) * 5 = 5 by norm_num, rF_5]
  have hadd1 : addF 0 5 = 5 := by
    rw [addF, zero_add, rF_5]
  have hadd2 : addF 5 5 = 10 := by
    rw [addF, show (5 : ℚ) + 5 = 10 by norm_num, rF_10]
  have hval : validateItems [productP] stC7.lots "s" reqC7.items
      = Except.ok ([⟨"p", 5, 5⟩, ⟨"p", 5, 5⟩], 10) := by
    simp [validateItems, validateItemsList, GetTotalInventoryQuantity, allocPred, productP,
      sampleLot, stC7, reqC7, hmul, hadd1, hadd2]
    norm_num [hadd1, hadd2]
  have hdep : depleteItems stC7.lots reqC7.items
      = ([], some ("p", DepleteError.noInventory "p")) := by
    simp [depleteItems, stC7, reqC7, reduce_sample, reduce_nil]
  have hsub10 : subF 10 (10 : ℚ) = 0 := by
    rw [subF, show (10 : ℚ) - 10 = 0 by norm_num, roundF_zero]
  have hM : mismatchCheck 10 reqC7.grand_total = false := by
    simp only [reqC7, mismatchCheck, decide_eq_false_iff_not, hsub10, abs_zero, rF_001]
    norm_num
  have h := claim_C7_no_rollback_on_depletion_failure [userC] [storeC] [productP] dateC
    reqC7 "u" stC7 userC "s" storeC "sc" [⟨"p", 5, 5⟩, ⟨"p", 5, 5⟩] 10 []
    "p" (DepleteError.noInventory "p")
    (by simp [reqC7]) (by norm_num [reqC7]) rfl rfl rfl rfl hval hM hdep
  simpa [stC7, reqC7] using h

/-- Concrete cart for the amended C6 linkage: 2 units of the unit-price
product against grand_total 2, every value exactly representable in
binary64. -/
def reqC6 : CheckoutRequest := ⟨none, 2, [⟨"p", 2⟩]⟩

/-- Witness for the amended claim C6: a float-computed absolute
difference exactly equal to the double 0.01 passes the tolerance test, a
difference equal to the double 0.011 fails it, and at a concrete
reach-the-reconcile-step checkout the GrandTotalMismatch error is raised
exactly when the embedded tolerance test fires. -/
theorem claim_C6_float_witness :
    mismatchCheck (roundF (2 / 100)) (roundF (1 / 100)) = false
    ∧ mismatchCheck (6341068275337658 / 2 ^ 58) (roundF (11 / 1000)) = true
    ∧ ((Checkout [userC] [storeC] [productP] dateC reqC6 "u" stC7).2
        = Except.error (CheckoutErr.grandTotalMismatch 2 reqC6.grand_total)
      ↔ mismatchCheck 2 reqC6.grand_total = true) := by
  have h1 := (claim_C6_grand_total_float (roundF (2 / 100)) (roundF (1 / 100))).2.1
    sub_002_001
  have h2 := (claim_C6_grand_total_float (6341068275337658 / 2 ^ 58)
    (roundF (11 / 1000))).2.2.1 sub_0011
  have hmul : mulF 1 2 = 2 := by
    rw [mulF, show (1 : ℚ) * 2 = 2 by norm_num, rF_2]
  have hadd : addF 0 2 = 2 := by
    rw [addF, zero_add, rF_2]
  have hval : validateItems [productP] stC7.lots "s" reqC6.items
      = Except.ok ([⟨"p", 2, 2⟩], 2) := by
    simp [validateItems, validateItemsList, GetTotalInventoryQuantity, allocPred, productP,
      sampleLot, stC7, reqC6, hmul, hadd]
    norm_num [hadd]
  have h3 := (claim_C6_grand_total_float 2 reqC6.grand_total).2.2.2.2 [userC] [storeC]
    [productP] dateC reqC6 "u" stC7 userC "s" storeC "sc" [⟨"p", 2, 2⟩] 2
    (by simp [reqC6]) (by norm_num [reqC6]) rfl rfl rfl rfl hval
  exact ⟨h1, h2, h3⟩

/-- One entry of the batch-create request
(InventoryUseCase.CreateInventoryBatch): optional fields mirror the
loosely-typed request body, where a missing product_id or quantity is a
validation failure. -/
structure BatchEntry where
  product_id : Option String
  quantity : Option ℚ
  location : Option String
  expiry_date : Option ℤ
  store_id : Option String
deriving DecidableEq, Repr

/-- A user account as read by the batch use case: id, optional home
store, optional role level. -/
structure UserAcct where
  id : String
  store_id : Option String
  role_level : Option Nat
deriving DecidableEq, Repr

/-- The failure modes of InventoryUseCase.CreateInventoryBatch, keyed by
its throw sites. -/
inductive BatchErr where
  | userNotFound
  | userStoreRequired
  | storeCodeRequired
  | productIdRequired
  | quantityRequired
  | entryStoreIdRequired (productId : String)
  | entryStoreNotFound (productId : String)
  | entryStoreCodeMissing (storeName : String)
  | productNotFound (productId : String)
  | productNotInStore (productName storeName : String)
deriving DecidableEq, Repr

/-- The JavaScript expression userLevel || user.role?.level: the
userLevel argument wins unless it is falsy (undefined or 0). -/
def jsOr (userLevel roleLevel : Option Nat) : Option Nat :=
  match userLevel with
  | some l => if l = 0 then roleLevel else some l
  | none => roleLevel

/-- The per-entry validation loop of CreateInventoryBatch (lines
190-256): requires product_id and quantity, resolves the store for the
entry (per-entry store for level 99, the default store otherwise),
requires the store and its store_code, requires the product to exist and
to belong to that store, computes the status from the expiry date, and
accumulates the row to insert.  The database-assigned lot id and
creation timestamp are modelled as 0 and the passed instant. -/
def validateEntries (stores : List Store) (catalog : List Product)
    (actualUserLevel : Option Nat) (defaultStoreId : Option String)
    (defaultStore : Option Store) (now : ℤ) (userId : String) :
    List BatchEntry → Except BatchErr (List Lot)
  | [] => Except.ok []
  | data :: rest =>
    match data.product_id with
    | none => Except.error BatchErr.productIdRequired
    | some pid =>
      match data.quantity with
      | none => Except.error BatchErr.quantityRequired
      | some qty =>
        let inventoryStoreId : Option String :=
          if actualUserLevel = some 99 then data.store_id else defaultStoreId
        let inventoryStore : Option Store :=
          if actualUserLevel = some 99 then
            match data.store_id with
            | some sid => stores.find? (fun s => decide (s.id = sid))
            | none => none
          else defaultStore
        if actualUserLevel = some 99 ∧ data.store_id = none then
          Except.error (BatchErr.entryStoreIdRequired pid)
        else
          match inventoryStore with
          | none => Except.error (BatchErr.entryStoreNotFound pid)
          | some invStore =>
            match invStore.store_code with
            | none => Except.error (BatchErr.entryStoreCodeMissing invStore.name)
            | some _ =>
              match catalog.find? (fun pr => decide (pr.id = pid)) with
              | none => Except.error (BatchErr.productNotFound pid)
              | some product =>
                if product.store_id ≠ inventoryStoreId then
                  Except.error (BatchErr.productNotInStore product.name invStore.name)
                else
                  let status := inventoryStatus now data.expiry_date
                  match validateEntries stores catalog actualUserLevel defaultStoreId
                      defaultStore now userId rest with
                  | Except.error e => Except.error e
                  | Except.ok lots =>
                    Except.ok (⟨0, pid, qty, data.location, data.expiry_date, status,
                      userId, now⟩ :: lots)

/-- InventoryUseCase.CreateInventoryBatch (lines 148-261): resolves the
acting user, the effective level (userLevel || role level) and, below
level 99, the default store and its code; then validates every entry
through the loop above, and only after the whole loop succeeds performs
the single bulk insert (InventoryRepository.CreateBatch).  Returns the
resulting inventories table and the error, if any. -/
def CreateInventoryBatch (users : List UserAcct) (stores : List Store)
    (catalog : List Product) (entries : List BatchEntry) (userId : String)
    (userLevel : Option Nat) (now : ℤ) (db : List Lot) : List Lot × Option BatchErr :=
  match users.find? (fun u => decide (u.id = userId)) with
  | none => (db, some BatchErr.userNotFound)
  | some user =>
    if jsOr userLevel user.role_level = some 99 then
      match validateEntries stores catalog (jsOr userLevel user.role_level) none none
          now userId entries with
      | Except.error e => (db, some e)
      | Except.ok lots => (db ++ lots, none)
    else
      match user.store_id with
      | none => (db, some BatchErr.userStoreRequired)
      | some dsid =>
        match stores.find? (fun s => decide (s.id = dsid)) with
        | none => (db, some BatchErr.storeCodeRequired)
        | some dstore =>
          match dstore.store_code with
          | none => (db, some BatchErr.storeCodeRequired)
          | some _ =>
            match validateEntries stores catalog (jsOr userLevel user.role_level)
                (some dsid) (some dstore) now userId entries with
            | Except.error e => (db, some e)
            | Except.ok lots => (db ++ lots, none)

theorem batch_shape (users : List UserAcct) (stores : List Store) (catalog : List Product)
    (entries : List BatchEntry) (userId : String) (userLevel : Option Nat) (now : ℤ)
    (db : List Lot) :
    (∃ e, CreateInventoryBatch users stores catalog entries userId userLevel now db
        = (db, some e))
    ∨ (∃ newLots, CreateInventoryBatch users stores catalog entries userId userLevel now db
        = (db ++ newLots, none)) := by
  unfold CreateInventoryBatch
  repeat' split
  all_goals first
    | exact Or.inl ⟨_, rfl⟩
    | exact Or.inr ⟨_, rfl⟩

/-- Claim C8: CreateInventoryBatch validates every entry before
performing any insert: whenever it reports an error the inventories
table is unchanged (no partial success), and on success the table is
exactly the old table with the validated batch appended. -/
theorem claim_C8_batch_all_or_nothing (users : List UserAcct) (stores : List Store)
    (catalog : List Product) (entries : List BatchEntry) (userId : String)
    (userLevel : Option Nat) (now : ℤ) (db : List Lot) :
    (∀ e : BatchErr,
      (CreateInventoryBatch users stores catalog entries userId userLevel now db).2 = some e
      → (CreateInventoryBatch users stores catalog entries userId userLevel now db).1 = db)
    ∧ ((CreateInventoryBatch users stores catalog entries userId userLevel now db).2 = none
      → ∃ newLots,
          (CreateInventoryBatch users stores catalog entries userId userLevel now db).1
            = db ++ newLots) := by
  rcases batch_shape users stores catalog entries userId userLevel now db with
    ⟨e0, heq⟩ | ⟨newLots, heq⟩
  · constructor
    · intro e _
      rw [heq]
    · intro h
      rw [heq] at h
      simp at h
  · constructor
    · intro e he
      rw [heq] at he
      simp at he
    · intro _
      exact ⟨newLots, by rw [heq]⟩

/-- Witness for claim C8: a two-entry batch whose second entry is
missing its quantity fails as a whole with the quantity-required error
and inserts nothing. -/
theorem claim_C8_witness :
    (CreateInventoryBatch [⟨"u", some "s", some 40⟩] [storeC] [productP]
        [⟨some "p", some 2, none, none, none⟩, ⟨some "p", none, none, none, none⟩]
        "u" (some 40) 0 []).2 = some BatchErr.quantityRequired
    ∧ (CreateInventoryBatch [⟨"u", some "s", some 40⟩] [storeC] [productP]
        [⟨some "p", some 2, none, none, none⟩, ⟨some "p", none, none, none, none⟩]
        "u" (some 40) 0 []).1 = [] := by
  have hsnd : (CreateInventoryBatch [⟨"u", some "s", some 40⟩] [storeC] [productP]
      [⟨some "p", some 2, none, none, none⟩, ⟨some "p", none, none, none, none⟩]
      "u" (some 40) 0 []).2 = some BatchErr.quantityRequired := by
    rfl
  exact ⟨hsnd,
    (claim_C8_batch_all_or_nothing [⟨"u", some "s", some 40⟩] [storeC] [productP]
      [⟨some "p", some 2, none, none, none⟩, ⟨some "p", none, none, none, none⟩]
      "u" (some 40) 0 []).1 BatchErr.quantityRequired hsnd⟩

end HelloIbe
